import Mathlib

/-!
Shallow embedding of the Jarvis Telegram bot (`jarvis_bot.py`): the function
dispatcher (`execute_function`), the time parser (`parse_time_string`), the AI
response orchestrator (`get_ai_response`), the per-user settings accessors and
the message-router gate (`handle_message`).  Python strings are modelled as
`String`/`List Char`, the SQLite tables as lists of records with explicit
auto-increment counters, wall-clock time as seconds since the epoch (`Nat`),
and `random.choice` as indexing by an externally supplied number.
-/

set_option maxHeartbeats 1000000

namespace Jarvis

/-- A JSON scalar as produced by `json.loads` on the directive payloads:
either a JSON string or a JSON integer. -/
inductive JVal where
  | str (s : String)
  | num (n : Int)
deriving DecidableEq, Repr

/-- A parsed JSON object (the `parameters` dict of a directive). -/
def Params := List (String × JVal)
deriving DecidableEq, Repr

/-- Python truthiness of a parameter value: `""` and `0` are falsy. -/
def jfalsy : JVal → Bool
  | .str s => s == ""
  | .num n => n == 0

/-- Rendering of a parameter value inside an f-string (`str` in Python). -/
def jrender : JVal → String
  | .str s => s
  | .num n => toString n

/-- `parameters.get(k)`: dictionary lookup.  `json.loads` keeps the last
binding of a duplicated key, hence the lookup from the right. -/
def pget (ps : Params) (k : String) : Option JVal :=
  (List.find? (fun p => p.1 == k) (List.reverse ps)).map Prod.snd

/-- `parameters.get(k, "")`: lookup with the empty-string default. -/
def pgetD (ps : Params) (k : String) : JVal :=
  (pget ps k).getD (JVal.str "")

/-! ## Python string primitives, modelled over `List Char` -/

/-- `str.strip()`: drop whitespace from both ends. -/
def pyStrip (l : List Char) : List Char :=
  List.reverse (List.dropWhile Char.isWhitespace
    (List.reverse (List.dropWhile Char.isWhitespace l)))

/-- `str.replace(pat, "")` for a non-empty `pat`: remove every occurrence,
scanning left to right (fuelled so that the kernel can evaluate it). -/
def removeAllF (pat : List Char) : Nat → List Char → List Char
  | 0, s => s
  | _ + 1, [] => []
  | f + 1, c :: cs =>
    if List.isPrefixOf pat (c :: cs) then
      removeAllF pat f (List.drop pat.length (c :: cs))
    else
      c :: removeAllF pat f cs

/-- `str.replace(pat, "")`. -/
def removeAll (pat s : List Char) : List Char :=
  removeAllF pat (s.length + 1) s

/-- `str.split(sep)` for a non-empty `sep`: split on every occurrence,
left to right, keeping empty segments (fuelled). -/
def splitSepF (sep : List Char) : Nat → List Char → List (List Char)
  | 0, s => [s]
  | _ + 1, [] => [[]]
  | f + 1, c :: cs =>
    if List.isPrefixOf sep (c :: cs) then
      [] :: splitSepF sep f (List.drop sep.length (c :: cs))
    else
      match splitSepF sep f cs with
      | [] => [[c]]
      | h :: t => (c :: h) :: t

/-- `str.split(sep)`. -/
def splitSep (sep s : List Char) : List (List Char) :=
  splitSepF sep (s.length + 1) s

/-- ASCII digit run → value (used by the JSON grammar, whose number
production is ASCII-only). -/
def digitsVal (ds : List Char) : Nat :=
  List.foldl (fun a c => 10 * a + (c.toNat - 48)) 0 ds

/-- The regex `\d` / `int()` digit class: Unicode decimal digits.  Modelled
for the scripts this bot meets — ASCII `0-9`, Arabic-Indic `U+0660-0669`
and Extended Arabic-Indic (Persian) `U+06F0-06F9`; the remaining Nd scripts
are omitted from the model. -/
def pyIsDigit (c : Char) : Bool :=
  (48 ≤ c.toNat && c.toNat ≤ 57)
    || (1632 ≤ c.toNat && c.toNat ≤ 1641)
    || (1776 ≤ c.toNat && c.toNat ≤ 1785)

/-- The numeric value of a Unicode decimal digit (same fragment). -/
def pyDigitVal (c : Char) : Nat :=
  if 48 ≤ c.toNat && c.toNat ≤ 57 then c.toNat - 48
  else if 1632 ≤ c.toNat && c.toNat ≤ 1641 then c.toNat - 1632
  else c.toNat - 1776

/-- Unicode digit run → value (a regex `\d+` group fed to `int`). -/
def pyDigitsVal (ds : List Char) : Nat :=
  List.foldl (fun a c => 10 * a + pyDigitVal c) 0 ds

/-- The digit part of Python `int()`: digits with optional single
underscores strictly between digits (`int("1_0") = 10`, while `"_1"`,
`"1_"` and `"1__0"` raise). -/
def pyIntGo (acc : Nat) : List Char → Option Nat
  | [] => some acc
  | '_' :: d :: rest =>
    if pyIsDigit d then pyIntGo (10 * acc + pyDigitVal d) rest else none
  | ['_'] => none
  | d :: rest =>
    if pyIsDigit d then pyIntGo (10 * acc + pyDigitVal d) rest else none

/-- The digit-sequence production of `int()`: must start with a digit. -/
def pyIntDigits : List Char → Option Nat
  | [] => none
  | c :: rest => if pyIsDigit c then pyIntGo (pyDigitVal c) rest else none

/-- Python `int(s)` on a string: optional surrounding whitespace, optional
sign, then Unicode decimal digits with underscore grouping; anything else
raises (here: `none`). -/
def pyInt (s : String) : Option Int :=
  match pyStrip s.data with
  | '+' :: ds => (pyIntDigits ds).map (fun n => (n : Int))
  | '-' :: ds => (pyIntDigits ds).map (fun n => -(n : Int))
  | ds => (pyIntDigits ds).map (fun n => (n : Int))

/-- `int(task_number)` on a JSON value: a JSON integer is itself, a JSON
string goes through `pyInt`. -/
def toIntJ : JVal → Option Int
  | .num n => some n
  | .str s => pyInt s

/-! ## JSON object parsing

Model of Python `json.loads` restricted to flat JSON objects with string keys
and string/integer values — the payload shape of the directive protocol
(`\x7b"key": "value"\x7d`).  Inputs outside this fragment are rejected. -/

/-- The left-brace character, kept out of literals. -/
def openBrace : Char := Char.ofNat 123

/-- The right-brace character, kept out of literals. -/
def closeBrace : Char := Char.ofNat 125

/-- JSON whitespace skipping. -/
def skipWs (l : List Char) : List Char :=
  List.dropWhile Char.isWhitespace l

/-- JSON string escapes (without the `\uXXXX` form, unused by the bot):
the self-representing ones, then the named control characters. -/
def jsonEsc (e : Char) : Option Char :=
  if e = '"' ∨ e = '\\' ∨ e = '/' then some e
  else if e = 'n' then some (Char.ofNat 10)
  else if e = 't' then some (Char.ofNat 9)
  else if e = 'r' then some (Char.ofNat 13)
  else if e = 'b' then some (Char.ofNat 8)
  else if e = 'f' then some (Char.ofNat 12)
  else none

/-- Body of a JSON string literal: accumulate characters up to the closing
quote, decoding backslash escapes. -/
def jstrAux : List Char → List Char → Option (List Char × List Char)
  | _, [] => none
  | acc, '\\' :: e :: rest =>
    (jsonEsc e).bind (fun c => jstrAux (c :: acc) rest)
  | acc, '"' :: rest => some (acc.reverse, rest)
  | acc, c :: rest => jstrAux (c :: acc) rest

/-- A JSON integer literal. -/
def jnum (s : List Char) : Option (Int × List Char) :=
  match s with
  | '-' :: rest =>
    let ds := List.takeWhile Char.isDigit rest
    if ds = [] then none
    else some (-(digitsVal ds : Int), List.dropWhile Char.isDigit rest)
  | _ =>
    let ds := List.takeWhile Char.isDigit s
    if ds = [] then none
    else some ((digitsVal ds : Int), List.dropWhile Char.isDigit s)

/-- A JSON scalar value: string or integer. -/
def jvalParse (s : List Char) : Option (JVal × List Char) :=
  match s with
  | '"' :: rest => (jstrAux [] rest).map (fun p => (JVal.str (String.mk p.1), p.2))
  | _ => (jnum s).map (fun p => (JVal.num p.1, p.2))

/-- The members of a JSON object, after the opening brace (fuelled). -/
def jmembers : Nat → List Char → Option (List (String × JVal) × List Char)
  | 0, _ => none
  | f + 1, s =>
    match skipWs s with
    | '"' :: rest =>
      match jstrAux [] rest with
      | none => none
      | some (k, r1) =>
        match skipWs r1 with
        | ':' :: r2 =>
          match jvalParse (skipWs r2) with
          | none => none
          | some (v, r3) =>
            match skipWs r3 with
            | ',' :: r4 =>
              (jmembers f r4).map (fun p => ((String.mk k, v) :: p.1, p.2))
            | c :: r4 =>
              if c = closeBrace then some ([(String.mk k, v)], r4) else none
            | [] => none
        | _ => none
    | _ => none

/-- `json.loads` on a directive payload: a flat JSON object, with nothing but
whitespace around it; `none` models a raised `JSONDecodeError`. -/
def jsonParseObj (cs : List Char) : Option Params :=
  match skipWs cs with
  | c :: rest =>
    if c = openBrace then
      match skipWs rest with
      | d :: tail =>
        if d = closeBrace then
          if skipWs tail = [] then some [] else none
        else
          match jmembers (cs.length + 1) rest with
          | none => none
          | some (ps, tail2) => if skipWs tail2 = [] then some ps else none
      | [] => none
    else none
  | [] => none

/-! ## Time parser (`parse_time_string`, lines 478–519) -/

/-- Alias spellings of the minutes unit (pattern 1 of the source). -/
def minuteUnits : List (List Char) :=
  ["دقیقه".data, "minute".data, "min".data, "m".data]

/-- Alias spellings of the hours unit (pattern 2 of the source). -/
def hourUnits : List (List Char) :=
  ["ساعت".data, "hour".data, "h".data]

/-- Alias spellings of the days unit (pattern 3 of the source). -/
def dayUnits : List (List Char) :=
  ["روز".data, "day".data, "d".data]

/-- Does one of the unit spellings start here? -/
def startsWithOneOf (units : List (List Char)) (s : List Char) : Bool :=
  List.any units (fun u => List.isPrefixOf u s)

/-- `re.search(r"(\d+)\s*(?:unit₁|…)", s)`: scan left to right for a digit
run followed (after optional whitespace) by one of the unit spellings; return
the value of the digit run.  Greedy `\d+`/`\s*` munching agrees with the
regex because no unit spelling begins with a digit or whitespace. -/
def searchNum (units : List (List Char)) : List Char → Option Nat
  | [] => none
  | c :: cs =>
    if pyIsDigit c then
      if startsWithOneOf units
          (List.dropWhile Char.isWhitespace
            (List.dropWhile pyIsDigit (c :: cs))) then
        some (pyDigitsVal (List.takeWhile pyIsDigit (c :: cs)))
      else searchNum units cs
    else searchNum units cs

/-- `re.match(r"^(\d+)([mhd])$", s)`: the strict whole-string fallback. -/
def matchBasic (cs : List Char) : Option (Nat × Char) :=
  let ds := List.takeWhile pyIsDigit cs
  match List.dropWhile pyIsDigit cs with
  | [u] =>
    if ds ≠ [] ∧ (u = 'm' ∨ u = 'h' ∨ u = 'd') then some (pyDigitsVal ds, u)
    else none
  | _ => none

/-- The message of the `ValueError` raised on an unrecognized time string. -/
def timeFormatMsg : String := "فرمت زمان: 30m, 2h, 1d یا '30 دقیقه'"

/-- The exceptions `parse_time_string` can raise: the `ValueError` of an
unrecognized format (caught by `set_reminder`'s `except ValueError`), and
the `OverflowError` of `timedelta`/`datetime` arithmetic on a too-large
value (NOT caught there — it escapes to the outer generic handler). -/
inductive PyErr where
  | valueError (msg : String)
  | overflowError
deriving DecidableEq, Repr

/-- Equality of `Except` results is decidable componentwise. -/
instance {e a : Type} [DecidableEq e] [DecidableEq a] : DecidableEq (Except e a)
  | .ok x, .ok y =>
    if h : x = y then .isTrue (by rw [h])
    else .isFalse (fun hh => h (Except.ok.inj hh))
  | .error x, .error y =>
    if h : x = y then .isTrue (by rw [h])
    else .isFalse (fun hh => h (Except.error.inj hh))
  | .ok _, .error _ => .isFalse (fun hh => Except.noConfusion hh)
  | .error _, .ok _ => .isFalse (fun hh => Except.noConfusion hh)

/-- `datetime.max` (9999-12-31 23:59:59) in epoch seconds; additions past
it raise `OverflowError` (sub-second grain elided). -/
def DATETIME_MAX_EPOCH : Nat := 253402300799

/-- `now + timedelta(<unit>=value)` with `secsPerUnit` seconds per unit:
`timedelta` construction overflows past 999999999 days, and the `datetime`
addition overflows past `datetime.max`; both raise `OverflowError`. -/
def addTimedelta (now value secsPerUnit : Nat) : Except PyErr Nat :=
  if value * secsPerUnit / 86400 > 999999999 then .error .overflowError
  else if now + value * secsPerUnit > DATETIME_MAX_EPOCH then .error .overflowError
  else .ok (now + value * secsPerUnit)

/-- `time_str.lower().strip()`, as done at the top of `parse_time_string`. -/
def normTime (s : String) : List Char :=
  pyStrip (List.map Char.toLower s.data)

/-- `parse_time_string` (lines 478–519): try the three unit patterns in
order (minutes, hours, days), then the strict `^(\d+)([mhd])$` fallback;
return `now` plus the duration in seconds, raise the format `ValueError`
when nothing matches, or raise `OverflowError` from the
`now + timedelta(...)` arithmetic on a too-large value. -/
def parse_time_string (now : Nat) (time_str : String) : Except PyErr Nat :=
  match searchNum minuteUnits (normTime time_str) with
  | some v => addTimedelta now v 60
  | none =>
    match searchNum hourUnits (normTime time_str) with
    | some v => addTimedelta now v 3600
    | none =>
      match searchNum dayUnits (normTime time_str) with
      | some v => addTimedelta now v 86400
      | none =>
        match matchBasic (normTime time_str) with
        | some (v, u) =>
          if u = 'm' then addTimedelta now v 60
          else if u = 'h' then addTimedelta now v 3600
          else addTimedelta now v 86400
        | none => .error (.valueError timeFormatMsg)

/-! ## Data model: the six SQLite tables, with explicit autoincrement
counters; `created_at DEFAULT CURRENT_TIMESTAMP` is the call-time clock. -/

/-- A row of the `tasks` table. -/
structure Task where
  id : Nat
  user_id : Int
  description : String
  created_at : Nat
  completed : Bool
deriving DecidableEq, Repr

/-- A row of the `notes` table. -/
structure Note where
  id : Nat
  user_id : Int
  content : String
  created_at : Nat
deriving DecidableEq, Repr

/-- A row of the `reminders` table. -/
structure Reminder where
  id : Nat
  user_id : Int
  description : String
  reminder_time : Nat
  created_at : Nat
  completed : Bool
deriving DecidableEq, Repr

/-- A row of the `settings` table (`user_id` is the primary key). -/
structure SettingsRow where
  user_id : Int
  daily_tip_enabled : Bool
  daily_tip_time : String
  voice_replies : Bool
  ai_enabled : Bool
  ai_model : String
deriving DecidableEq, Repr

/-- A row of the `ai_conversations` table. -/
structure AIConv where
  id : Nat
  user_id : Int
  message : String
  response : String
  model_used : String
  created_at : Nat
deriving DecidableEq, Repr

/-- The database: rows in insertion (rowid) order per table, plus the next
autoincrement id of each table with an `AUTOINCREMENT` column. -/
structure DB where
  tasks : List Task
  notes : List Note
  reminders : List Reminder
  settings : List SettingsRow
  ai_conversations : List AIConv
  next_task_id : Nat
  next_note_id : Nat
  next_reminder_id : Nat
  next_conv_id : Nat
deriving DecidableEq, Repr

/-- A freshly initialized database. -/
def emptyDB : DB := ⟨[], [], [], [], [], 1, 1, 1, 1⟩

/-- The ambient effects `execute_function` draws on: `datetime.now()` as
seconds since the epoch, and the index `random.choice` picks. -/
structure Env where
  now : Nat
  rand : Nat
deriving DecidableEq, Repr

/-- A job registered with the scheduler by `scheduler.add_job`:
`DateTrigger(run_date=…)`, `args=[user_id, description, reminder_id]`,
`id=f"reminder_\x7bid\x7d"`. -/
structure Job where
  job_id : String
  run_date : Nat
  user_id : Int
  description : String
  reminder_id : Nat
deriving DecidableEq, Repr

/-- The column defaults of the `settings` table (lines 119–126). -/
def defaultSettings (uid : Int) : SettingsRow :=
  ⟨uid, true, "09:00", false, true, "openai/gpt-3.5-turbo"⟩

/-! ## Calendar rendering (`strftime`), over epoch seconds -/

/-- The calendar day index of an epoch-seconds timestamp (`DATE(...)` /
`datetime.now().date()` bucketing). -/
def dayOf (t : Nat) : Nat := t / 86400

/-- Days since 1970-01-01 to a civil (year, month, day) triple — the
standard civil-from-days conversion. -/
def civilFromDays (z : Nat) : Nat × Nat × Nat :=
  let za := z + 719468
  let era := za / 146097
  let doe := za % 146097
  let yoe := (doe - doe / 1460 + doe / 36524 - doe / 146096) / 365
  let y := yoe + era * 400
  let doy := doe - (365 * yoe + yoe / 4 - yoe / 100)
  let mp := (5 * doy + 2) / 153
  let d := doy - (153 * mp + 2) / 5 + 1
  let m := if mp < 10 then mp + 3 else mp - 9
  (if m ≤ 2 then y + 1 else y, m, d)

/-- Two-digit zero padding. -/
def pad2 (n : Nat) : String :=
  if n < 10 then "0" ++ toString n else toString n

/-- `strftime('%m/%d')` of an epoch-seconds timestamp. -/
def formatMD (t : Nat) : String :=
  let c := civilFromDays (dayOf t)
  pad2 c.2.1 ++ "/" ++ pad2 c.2.2

/-- `strftime('%m/%d %H:%M')` of an epoch-seconds timestamp. -/
def formatMDHM (t : Nat) : String :=
  formatMD t ++ " " ++ pad2 (t % 86400 / 3600) ++ ":" ++ pad2 (t % 3600 / 60)

/-- `strftime('%Y/%m/%d')` of an epoch-seconds timestamp. -/
def formatYMD (t : Nat) : String :=
  let c := civilFromDays (dayOf t)
  toString c.1 ++ "/" ++ pad2 c.2.1 ++ "/" ++ pad2 c.2.2

/-! ## Function dispatcher (`execute_function`, lines 155–326) -/

/-- Stable insertion step for sorting by `created_at`. -/
def insertByCreated (t : Task) : List Task → List Task
  | [] => [t]
  | u :: us =>
    if t.created_at ≤ u.created_at then t :: u :: us
    else u :: insertByCreated t us

/-- `ORDER BY created_at`: a stable sort on the creation timestamp (rows
with equal timestamps keep their rowid order, as in SQLite's table scan). -/
def sortByCreated : List Task → List Task
  | [] => []
  | t :: ts => insertByCreated t (sortByCreated ts)

/-- `SELECT … FROM tasks WHERE user_id = ? AND completed = FALSE ORDER BY
created_at`: the user's current incomplete-task ordering. -/
def incompleteOf (db : DB) (uid : Int) : List Task :=
  sortByCreated (List.filter (fun t => t.user_id == uid && !t.completed) db.tasks)

/-- `UPDATE tasks SET completed = TRUE WHERE id = ?` on a single row. -/
def markCompleted (tid : Nat) (t : Task) : Task :=
  if t.id == tid then { t with completed := true } else t

/-- The numbered task lines of the `list_tasks` reply. -/
def renderTaskLines : Nat → List Task → String
  | _, [] => ""
  | i, t :: ts =>
    toString i ++ ". " ++ t.description ++ " 📅 " ++ formatMD t.created_at ++ "\n"
      ++ renderTaskLines (i + 1) ts

/-- The note lines of the `list_notes` reply. -/
def renderNoteLines : List Note → String
  | [] => ""
  | n :: ns => "💡 " ++ n.content ++ " 📅 " ++ formatMD n.created_at ++ "\n\n"
      ++ renderNoteLines ns

/-- The static tips list of `get_tip`. -/
def tips : List String :=
  [ "💡 **برنامه‌نویسی:** همیشه کدتان را مستند کنید!",
    "🌐 **شبکه:** TCP قابل اطمینان، UDP سریع‌تر است.",
    "🔒 **امنیت:** رمزها را هاردکد نکنید، از متغیرهای محیطی استفاده کنید.",
    "⚡ **کارایی:** الگوریتم O(n) بهتر از O(n²) است.",
    "🐍 **Python:** از List Comprehension استفاده کنید: [x*2 for x in range(10)]",
    "🗄️ **دیتابیس:** ایندکس روی ستون‌های پرجستجو سرعت را افزایش می‌دهد.",
    "🔧 **Git:** از git stash برای ذخیره موقت استفاده کنید.",
    "🎯 **تست:** کد بدون تست مثل ماشین بدون ترمز است!" ]

/-- The static quotes list of `get_quote`. -/
def quotes : List String :=
  [ "💫 \"تنها راه انجام کار عالی این است که آنچه انجام می‌دهید را دوست داشته باشید.\" - استیو جابز",
    "🌟 \"موفقیت نهایی نیست، شکست کشنده نیست: شجاعت ادامه دادن اهمیت دارد.\" - چرچیل",
    "🚀 \"آینده متعلق به کسانی است که به رویاهایشان ایمان دارند.\" - الینور روزولت",
    "💎 \"موفقیت مجموع تلاش‌های کوچک روزانه است.\" - رابرت کلیر",
    "🌈 \"هر روز فرصت جدیدی است. امروز را بهترین روز زندگی‌تان کنید.\"" ]

/-- The four `get_summary` counts (lines 293–310), in source order:
tasks of the caller created today and marked completed, incomplete tasks of
the caller, notes of the caller created today, AI-conversation rows of the
caller created today. -/
def summaryCounts (db : DB) (uid : Int) (now : Nat) : Nat × Nat × Nat × Nat :=
  ( (List.filter (fun t => t.user_id == uid && t.completed
        && (dayOf t.created_at == dayOf now)) db.tasks).length,
    (List.filter (fun t => t.user_id == uid && !t.completed) db.tasks).length,
    (List.filter (fun n => n.user_id == uid
        && (dayOf n.created_at == dayOf now)) db.notes).length,
    (List.filter (fun c => c.user_id == uid
        && (dayOf c.created_at == dayOf now)) db.ai_conversations).length )

/-- The `get_summary` reply string. -/
def renderSummary (now : Nat) (c : Nat × Nat × Nat × Nat) : String :=
  "📊 **خلاصه روزانه - " ++ formatYMD now ++ "**\n\n"
    ++ "✅ وظایف تکمیل شده: " ++ toString c.1 ++ "\n"
    ++ "📋 وظایف باقی‌مانده: " ++ toString c.2.1 ++ "\n"
    ++ "📝 یادداشت‌های امروز: " ++ toString c.2.2.1 ++ "\n"
    ++ "🤖 گفتگوهای AI: " ++ toString c.2.2.2 ++ "\n\n"
    ++ "💪 ادامه بدهید! هر قدم مهم است."

/-- The `complete_task` branch of `execute_function` (lines 186–209), over
the looked-up `task_number` parameter. -/
def complete_task_impl (v : Option JVal) (user_id : Int) (db : DB) :
    String × DB × List Job :=
  match v with
  | none => ("❌ کدام وظیفه را تکمیل کنم؟ شماره آن را بگویید.", db, [])
  | some v =>
    if jfalsy v then ("❌ کدام وظیفه را تکمیل کنم؟ شماره آن را بگویید.", db, [])
    else
      match toIntJ v with
      | none => ("❌ شماره وظیفه باید عدد باشد.", db, [])
      | some n =>
        let ts := incompleteOf db user_id
        if ts.isEmpty ∨ n < 1 ∨ n > (ts.length : Int) then
          ("❌ شماره وظیفه نامعتبر است.", db, [])
        else
          let t := ts.getD (n - 1).toNat ⟨0, 0, "", 0, false⟩
          ("🎉 وظیفه تکمیل شد: " ++ t.description,
           { db with tasks := db.tasks.map (markCompleted t.id) }, [])

/-- The model text of `str(e)` in the outer generic handler
(`f"❌ خطا در اجرای عملکرد: \x7be\x7d"`) when the raised exception is the
`OverflowError` escaping `parse_time_string`. -/
def overflow_error_message : String := "date value out of range"

/-- `execute_function` (lines 155–326): dispatch a symbolic function name
with a parameter mapping for an acting user; returns the reply string, the
database after the call, and the scheduler jobs registered by the call. -/
def execute_function (function_name : String) (parameters : Params)
    (user_id : Int) (db : DB) (env : Env) : String × DB × List Job :=
  if function_name == "add_task" then
    let description := pgetD parameters "description"
    if jfalsy description then ("❌ نیاز به توضیحات وظیفه دارم.", db, [])
    else
      let db1 := { db with
        tasks := db.tasks ++
          [⟨db.next_task_id, user_id, jrender description, env.now, false⟩],
        next_task_id := db.next_task_id + 1 }
      ("✅ وظیفه اضافه شد: " ++ jrender description, db1, [])
  else if function_name == "list_tasks" then
    let ts := incompleteOf db user_id
    if ts.isEmpty then ("📋 هیچ وظیفه‌ای در لیست نیست!", db, [])
    else ("📋 **وظایف باقی‌مانده:**\n\n" ++ renderTaskLines 1 ts, db, [])
  else if function_name == "complete_task" then
    complete_task_impl (pget parameters "task_number") user_id db
  else if function_name == "add_note" then
    let content := pgetD parameters "content"
    if jfalsy content then ("❌ متن یادداشت را وارد کنید.", db, [])
    else
      let db1 := { db with
        notes := db.notes ++ [⟨db.next_note_id, user_id, jrender content, env.now⟩],
        next_note_id := db.next_note_id + 1 }
      ("📝 یادداشت ذخیره شد: " ++ jrender content, db1, [])
  else if function_name == "list_notes" then
    let sorted := List.reverse (List.filter (fun n => n.user_id == user_id) db.notes)
    let ns := sorted.take 10
    if ns.isEmpty then ("📝 هیچ یادداشتی موجود نیست!", db, [])
    else ("📝 **یادداشت‌ها:**\n\n" ++ renderNoteLines ns, db, [])
  else if function_name == "set_reminder" then
    let timeVal := pgetD parameters "time"
    let descVal := pgetD parameters "description"
    if jfalsy timeVal ∨ jfalsy descVal then
      ("❌ زمان و توضیحات یادآوری لازم است. مثل: '30 دقیقه دیگر قرار ملاقات'", db, [])
    else
      match timeVal with
      | .num _ =>
        ("❌ خطا در اجرای عملکرد: 'int' object has no attribute 'lower'", db, [])
      | .str time_str =>
        match parse_time_string env.now time_str with
        | .error (.valueError e) => ("❌ " ++ e, db, [])
        | .error .overflowError =>
          ("❌ خطا در اجرای عملکرد: " ++ overflow_error_message, db, [])
        | .ok t =>
          let rid := db.next_reminder_id
          let db1 := { db with
            reminders := db.reminders ++
              [⟨rid, user_id, jrender descVal, t, env.now, false⟩],
            next_reminder_id := rid + 1 }
          ("⏰ یادآوری تنظیم شد: " ++ jrender descVal ++ " در " ++ formatMDHM t,
           db1, [⟨"reminder_" ++ toString rid, t, user_id, jrender descVal, rid⟩])
  else if function_name == "get_tip" then
    (tips.getD (env.rand % tips.length) "", db, [])
  else if function_name == "get_quote" then
    (quotes.getD (env.rand % quotes.length) "", db, [])
  else if function_name == "get_summary" then
    (renderSummary env.now (summaryCounts db user_id env.now), db, [])
  else
    ("❌ عملکرد '" ++ function_name ++ "' شناخته شده نیست.", db, [])

/-! ## Per-user settings (lines 549–599) -/

/-- `SELECT … FROM settings WHERE user_id = ?`: the user's settings row. -/
def settingsRow (db : DB) (uid : Int) : Option SettingsRow :=
  List.find? (fun s => s.user_id == uid) db.settings

/-- The body of `is_user_ai_enabled`, over the outcome of the read:
a raised exception (`.error`) and a missing row both yield `True`. -/
def is_user_ai_enabled_result (r : Except Unit (Option Bool)) : Bool :=
  match r with
  | .ok (some b) => b
  | .ok none => true
  | .error _ => true

/-- `is_user_ai_enabled` (lines 561–571). -/
def is_user_ai_enabled (db : DB) (uid : Int) : Bool :=
  is_user_ai_enabled_result (.ok ((settingsRow db uid).map SettingsRow.ai_enabled))

/-- `get_user_ai_model` (lines 549–559): the stored model if the row exists
and the column is non-empty, else the default. -/
def get_user_ai_model (db : DB) (uid : Int) : String :=
  match settingsRow db uid with
  | some s => if s.ai_model ≠ "" then s.ai_model else "openai/gpt-3.5-turbo"
  | none => "openai/gpt-3.5-turbo"

/-- `INSERT OR REPLACE INTO settings (user_id, c) VALUES (?, ?)`: delete any
row with this primary key, then insert a fresh row in which every column not
named in the statement takes its declared default. -/
def insertOrReplaceSettings (db : DB) (row : SettingsRow) : DB :=
  { db with settings :=
      List.filter (fun s => !(s.user_id == row.user_id)) db.settings ++ [row] }

/-- `set_user_ai_setting` (lines 573–585). -/
def set_user_ai_setting (db : DB) (uid : Int) (enabled : Bool) : DB :=
  insertOrReplaceSettings db { defaultSettings uid with ai_enabled := enabled }

/-- `set_user_ai_model` (lines 587–599). -/
def set_user_ai_model (db : DB) (uid : Int) (model : String) : DB :=
  insertOrReplaceSettings db { defaultSettings uid with ai_model := model }

/-! ## AI response orchestrator (`get_ai_response`, lines 328–476) -/

/-- A chat-completion message role. -/
inductive Role where
  | system
  | user
  | assistant
deriving DecidableEq, Repr

/-- A `\x7brole, content\x7d` chat message. -/
structure Msg where
  role : Role
  content : String
deriving DecidableEq, Repr

/-- The directive marker `EXECUTE_FUNCTION:`. -/
def markerChars : List Char := "EXECUTE_FUNCTION:".data

/-- The directive separator, exactly one space, a pipe, one space. -/
def sepChars : List Char := " | ".data

/-- The rendered system instruction block (the f-string of lines 339–391),
with the `Current context` slot filled from the optional context argument. -/
def build_system_prompt (context : Option String) : String :=
  "You are Jarvis, a helpful Persian/Farsi speaking AI assistant integrated into a Telegram bot. You can understand natural language and execute functions automatically.\n\n"
    ++ "IMPORTANT: You can execute the following functions by analyzing user intent:\n\n"
    ++ "1. add_task - When user wants to add a task/todo\n   Parameters: \x7b\"description\": \"task description\"\x7d\n   \n"
    ++ "2. list_tasks - When user asks to see tasks/todos\n   Parameters: \x7b\x7d\n   \n"
    ++ "3. complete_task - When user wants to mark a task as done\n   Parameters: \x7b\"task_number\": \"number\"\x7d\n   \n"
    ++ "4. add_note - When user wants to save a note\n   Parameters: \x7b\"content\": \"note content\"\x7d\n   \n"
    ++ "5. list_notes - When user asks to see notes\n   Parameters: \x7b\x7d\n   \n"
    ++ "6. set_reminder - When user wants to set a reminder\n   Parameters: \x7b\"time\": \"time format like 30m, 2h, 1d\", \"description\": \"reminder text\"\x7d\n   \n"
    ++ "7. get_tip - When user asks for tips or learning\n   Parameters: \x7b\x7d\n   \n"
    ++ "8. get_quote - When user asks for motivation or quotes\n   Parameters: \x7b\x7d\n   \n"
    ++ "9. get_summary - When user asks for daily summary\n   Parameters: \x7b\x7d\n\n"
    ++ "EXECUTION RULES:\n- If user intent matches a function, respond with: EXECUTE_FUNCTION: function_name | parameters_json\n- If multiple functions needed, pick the most relevant one\n- If no function needed, respond normally in Persian\n- Always be conversational and helpful\n\n"
    ++ "Examples:\nUser: \"یه وظیفه اضافه کن: خرید نان\"\nResponse: EXECUTE_FUNCTION: add_task | \x7b\"description\": \"خرید نان\"\x7d\n\n"
    ++ "User: \"وظیفه شماره 2 رو تمام کن\"\nResponse: EXECUTE_FUNCTION: complete_task | \x7b\"task_number\": \"2\"\x7d\n\n"
    ++ "User: \"30 دقیقه دیگر یادم بنداز قرار ملاقات دارم\"\nResponse: EXECUTE_FUNCTION: set_reminder | \x7b\"time\": \"30m\", \"description\": \"قرار ملاقات\"\x7d\n\n"
    ++ "User: \"چه خبر؟\"\nResponse: (normal conversation in Persian)\n\n"
    ++ "Current context: " ++ context.getD "General conversation" ++ "\n\n"
    ++ "Respond in Persian and be friendly and helpful."

/-- `l[-n:]` in Python: the last `n` entries (all of them if fewer). -/
def pyTakeLast (l : List Msg) (n : Nat) : List Msg :=
  List.drop (l.length - n) l

/-- The message list sent to the completion endpoint (lines 393–401): the
system block, then `memory[-3:]` — the last three stored message entries —
then the new user message. -/
def build_request_messages (context : Option String) (mem : List Msg)
    (message : String) : List Msg :=
  Msg.mk Role.system (build_system_prompt context)
    :: (pyTakeLast mem 3 ++ [Msg.mk Role.user message])

/-- The memory truncation of the non-directive branch (lines 460–461):
keep only the last 6 entries once the list exceeds 6. -/
def truncate6 (l : List Msg) : List Msg :=
  if l.length > 6 then pyTakeLast l 6 else l

/-- `save_ai_conversation` (lines 535–547): append the exchange to the
`ai_conversations` audit table. -/
def save_ai_conversation (db : DB) (uid : Int) (message response model : String)
    (env : Env) : DB :=
  { db with
    ai_conversations := db.ai_conversations ++
      [⟨db.next_conv_id, uid, message, response, model, env.now⟩],
    next_conv_id := db.next_conv_id + 1 }

/-- The segments of a directive: marker occurrences removed, the remainder
stripped, then split on every occurrence of the separator (line 433). -/
def directive_parts (resp : String) : List (List Char) :=
  splitSep sepChars (pyStrip (removeAll markerChars resp.data))

/-- The directive's function name: the first segment, stripped (line 434). -/
def directive_fname (resp : String) : String :=
  String.mk (pyStrip ((directive_parts resp).headD []))

/-- The directive's parameters (line 435): no second segment means the empty
dict; otherwise `json.loads` of the second segment, `none` on a raised
`JSONDecodeError`. -/
def directive_params (resp : String) : Option Params :=
  match (directive_parts resp)[1]? with
  | none => some []
  | some p => jsonParseObj p

/-- The model text of `str(e)` in the `f"❌ خطا در اجرای دستور: \x7be\x7d"`
handler for a failed payload parse. -/
def json_error_message : String := "Expecting value"

/-- The branch of `get_ai_response` on a received HTTP-200 model response
(lines 427–466): reply, this user's new conversation memory, the database
after the exchange, and any scheduler jobs registered by a dispatch. -/
def ai_respond (user_id : Int) (message : String) (mem : List Msg) (db : DB)
    (env : Env) (model : String) (ai_response : String) :
    String × List Msg × DB × List Job :=
  if List.isPrefixOf markerChars ai_response.data then
    match directive_params ai_response with
    | none =>
      ("❌ خطا در اجرای دستور: " ++ json_error_message, mem, db, [])
    | some parameters =>
      let r := execute_function (directive_fname ai_response) parameters user_id db env
      (r.1,
       mem ++ [Msg.mk Role.user message, Msg.mk Role.assistant r.1],
       save_ai_conversation r.2.1 user_id message r.1 model env,
       r.2.2)
  else
    (ai_response,
     truncate6 (mem ++ [Msg.mk Role.user message, Msg.mk Role.assistant ai_response]),
     save_ai_conversation db user_id message ai_response model env,
     [])

/-- The observable outcome of one `get_ai_response` call. -/
structure AIOutcome where
  request_messages : List Msg
  reply : String
  memory : List Msg
  db : DB
  jobs : List Job
deriving Repr

/-- `get_ai_response` (lines 328–476) on the successful-HTTP path, with the
external model's returned content supplied as `ai_response`: build the
request messages, pick the user's model, then handle the response as a
directive or as plain conversation. -/
def get_ai_response (user_id : Int) (message : String) (context : Option String)
    (mem : List Msg) (db : DB) (env : Env) (ai_response : String) : AIOutcome :=
  let model := get_user_ai_model db user_id
  let core := ai_respond user_id message mem db env model ai_response
  { request_messages := build_request_messages context mem message,
    reply := core.1,
    memory := core.2.1,
    db := core.2.2.1,
    jobs := core.2.2.2 }

/-! ## Router gate (`__init__` line 84 and `handle_message` lines 806–816) -/

/-- The global AI feature flag: `OPENROUTER_API_KEY != "YOUR_OPENROUTER_API_KEY"`,
where the key is `os.getenv("OPENROUTER_API_KEY")` — `none` when unset. -/
def ai_enabled_flag (key : Option String) : Bool :=
  !(key == some "YOUR_OPENROUTER_API_KEY")

/-- Where `handle_message` routes an owner message. -/
inductive OwnerRoute where
  | ai_processing
  | ai_disabled_reply
deriving DecidableEq, Repr

/-- The owner branch of `handle_message` (lines 806–816): invoke the
orchestrator only when the global flag and the per-user setting both pass. -/
def owner_message_route (key : Option String) (db : DB) (uid : Int) : OwnerRoute :=
  if ai_enabled_flag key && is_user_ai_enabled db uid then
    OwnerRoute.ai_processing
  else
    OwnerRoute.ai_disabled_reply

/-! # Theorems -/

/-! ## Helper lemmas -/

theorem takeWhile_digits_repl (B : Nat) :
    List.takeWhile pyIsDigit (List.replicate B '0' ++ ['m']) = List.replicate B '0' := by
  have h0 : pyIsDigit '0' = true := by decide
  have hm : pyIsDigit 'm' = false := by decide
  induction B with
  | zero => simp [List.takeWhile, hm]
  | succ B ih => simp [List.replicate_succ, List.takeWhile, h0, ih]

theorem dropWhile_digits_repl (B : Nat) :
    List.dropWhile pyIsDigit (List.replicate B '0' ++ ['m']) = ['m'] := by
  have h0 : pyIsDigit '0' = true := by decide
  have hm : pyIsDigit 'm' = false := by decide
  induction B with
  | zero => simp [List.dropWhile, hm]
  | succ B ih => simp [List.replicate_succ, List.dropWhile, h0, ih]

theorem foldl_digits_repl (B a : Nat) :
    List.foldl (fun a c => 10 * a + pyDigitVal c) a (List.replicate B '0')
      = a * 10 ^ B := by
  induction B generalizing a with
  | zero => simp
  | succ B ih =>
    rw [List.replicate_succ, List.foldl_cons, ih]
    have : pyDigitVal '0' = 0 := by decide
    rw [this]
    ring

theorem addTimedelta_ok (now v k : Nat) (h1 : ¬ v * k / 86400 > 999999999)
    (h2 : ¬ now + v * k > DATETIME_MAX_EPOCH) :
    addTimedelta now v k = .ok (now + v * k) := by
  unfold addTimedelta
  rw [if_neg h1, if_neg h2]

theorem normTime_pow_string (B : Nat) :
    normTime (String.mk ('1' :: (List.replicate B '0' ++ ['m'])))
      = '1' :: (List.replicate B '0' ++ ['m']) := by
  have h1 : Char.toLower '1' = '1' := by decide
  have h0 : Char.toLower '0' = '0' := by decide
  have hm : Char.toLower 'm' = 'm' := by decide
  have hw1 : Char.isWhitespace '1' = false := by decide
  have hwm : Char.isWhitespace 'm' = false := by decide
  unfold normTime pyStrip
  simp [h1, h0, hm, hw1, hwm, List.map_replicate, List.reverse_append,
    List.dropWhile_cons, List.reverse_replicate]

theorem searchNum_pow_string (B : Nat) :
    searchNum minuteUnits ('1' :: (List.replicate B '0' ++ ['m'])) = some (10 ^ B) := by
  have hd : pyIsDigit '1' = true := by decide
  unfold searchNum
  rw [hd]
  have hdrop : List.dropWhile pyIsDigit ('1' :: (List.replicate B '0' ++ ['m'])) = ['m'] := by
    rw [List.dropWhile_cons, hd]
    · exact dropWhile_digits_repl B
  have htake : List.takeWhile pyIsDigit ('1' :: (List.replicate B '0' ++ ['m']))
      = '1' :: List.replicate B '0' := by
    rw [List.takeWhile_cons, hd]
    · simp [takeWhile_digits_repl B]
  rw [hdrop, htake]
  have hsw : startsWithOneOf minuteUnits (List.dropWhile Char.isWhitespace ['m']) = true := by
    decide
  rw [hsw]
  simp only [if_true]
  congr 1
  have : pyDigitsVal ('1' :: List.replicate B '0') = 1 * 10 ^ B := by
    unfold pyDigitsVal
    rw [List.foldl_cons]
    have h1 : 10 * 0 + pyDigitVal '1' = 1 := by decide
    rw [h1, foldl_digits_repl]
  simpa using this

/-! ## C4 — Time Parser -/

/-- C4 fails on the code as stated: the value "10000000000000" of
`"10000000000000m"` is matched by the minutes pattern, yet the
`now + timedelta(minutes=value)` inside `parse_time_string` raises
`OverflowError` (timedelta past 999999999 days), so the function does NOT
accept arbitrarily large integer values — the result is an error distinct
from the time-format `ValueError`, not the timestamp. -/
theorem C4_counterexample :
    searchNum minuteUnits (normTime "10000000000000m") = some 10000000000000
    ∧ parse_time_string 0 "10000000000000m" = .error PyErr.overflowError
    ∧ parse_time_string 0 "10000000000000m" ≠ .ok (0 + 10000000000000 * 60)
    ∧ parse_time_string 0 "10000000000000m" ≠ .error (PyErr.valueError timeFormatMsg) := by
  refine ⟨by decide, by decide, by decide, by decide⟩

/-- C4 (amended): `parse_time_string` maps "30m", "2h", "1d", "30 دقیقه" —
and the Persian-digit "۳۰ دقیقه" — to now plus exactly 30 minutes, 2
hours, 1 day, 30 minutes, 30 minutes (whenever the result fits below
`datetime.max`); it raises the time-format `ValueError` exactly for the
strings on which the three ordered unit searches and the strict
whole-string fallback all fail, and that is the only `ValueError` it
produces.  The matched integer itself is unbounded, but every match is fed
to `now + timedelta(...)`, which raises `OverflowError` — a different
error, uncaught by `except ValueError` — beyond the timedelta/datetime
bounds; so arbitrarily large values are NOT accepted. -/
theorem C4_time_parse_contract (now : Nat) :
    (now + 86400 ≤ DATETIME_MAX_EPOCH →
      parse_time_string now "30m" = .ok (now + 1800)
      ∧ parse_time_string now "2h" = .ok (now + 7200)
      ∧ parse_time_string now "1d" = .ok (now + 86400)
      ∧ parse_time_string now "30 دقیقه" = .ok (now + 1800)
      ∧ parse_time_string now "۳۰ دقیقه" = .ok (now + 1800))
    ∧ (∀ s, parse_time_string now s = .error (PyErr.valueError timeFormatMsg) ↔
        (searchNum minuteUnits (normTime s) = none
          ∧ searchNum hourUnits (normTime s) = none
          ∧ searchNum dayUnits (normTime s) = none
          ∧ matchBasic (normTime s) = none))
    ∧ (∀ e s, parse_time_string now s = .error (PyErr.valueError e) → e = timeFormatMsg)
    ∧ (∀ B : Nat, ∃ s v, B < v ∧ searchNum minuteUnits (normTime s) = some v)
    ∧ (∀ s v, searchNum minuteUnits (normTime s) = some v →
        parse_time_string now s = addTimedelta now v 60) := by
  refine ⟨fun hnow => ?_, ?_, ?_, ?_, ?_⟩
  · refine ⟨?_, ?_, ?_, ?_, ?_⟩
    · exact addTimedelta_ok now 30 60 (by decide) (by omega)
    · exact addTimedelta_ok now 2 3600 (by decide) (by omega)
    · exact addTimedelta_ok now 1 86400 (by decide) (by omega)
    · exact addTimedelta_ok now 30 60 (by decide) (by omega)
    · exact addTimedelta_ok now 30 60 (by decide) (by omega)
  · intro s
    constructor
    · intro h
      unfold parse_time_string addTimedelta at h
      repeat' split at h
      all_goals simp_all
    · rintro ⟨h1, h2, h3, h4⟩
      unfold parse_time_string
      rw [h1, h2, h3, h4]
  · intro e s h
    unfold parse_time_string addTimedelta at h
    repeat' split at h
    all_goals simp_all [timeFormatMsg]
  · intro B
    refine ⟨String.mk ('1' :: (List.replicate B '0' ++ ['m'])), 10 ^ B,
      Nat.lt_pow_self (by norm_num) B, ?_⟩
    rw [normTime_pow_string, searchNum_pow_string]
  · intro s v h
    unfold parse_time_string
    rw [h]

/-- Witness for C4 at concrete inputs: at now = 0 the in-bounds inputs
"30m" and Persian-digit "۳۰ دقیقه" parse to 1800 seconds, and "xyz"
matches nothing, raising the time-format error. -/
theorem C4_witness :
    parse_time_string 0 "30m" = .ok (0 + 1800)
    ∧ parse_time_string 0 "۳۰ دقیقه" = .ok (0 + 1800)
    ∧ parse_time_string 0 "xyz" = .error (PyErr.valueError timeFormatMsg) :=
  ⟨((C4_time_parse_contract 0).1 (by decide)).1,
   ((C4_time_parse_contract 0).1 (by decide)).2.2.2.2,
   ((C4_time_parse_contract 0).2.1 "xyz").mpr ⟨rfl, rfl, rfl, rfl⟩⟩

/-! ## C7 — settings writes are whole-row replacements -/

theorem find?_insertOrReplace (l : List SettingsRow) (row : SettingsRow) :
    List.find? (fun s => s.user_id == row.user_id)
      (List.filter (fun s => !(s.user_id == row.user_id)) l ++ [row]) = some row := by
  induction l with
  | nil => simp [List.find?]
  | cons x xs ih =>
    by_cases hx : x.user_id == row.user_id
    · simp [List.filter_cons, hx, ih]
    · have hx2 : (x.user_id == row.user_id) = false := by simpa using hx
      simp only [List.filter_cons]
      rw [if_pos (by simp [hx2])]
      rw [List.cons_append]
      simp [List.find?_cons, hx2, ih]

/-- The settings fixture for C7: a stored row with a custom model and AI
explicitly disabled. -/
def c7_db : DB :=
  { emptyDB with settings := [⟨7, true, "09:00", false, false, "anthropic/claude-3.5-sonnet"⟩] }

/-- C7 fails on the code: `INSERT OR REPLACE` with only `(user_id,
ai_enabled)` deletes the old row and inserts a fresh one whose unspecified
columns take their declared defaults, so a previously stored custom
`ai_model` is reset to the default rather than left unchanged. -/
theorem C7_counterexample :
    (settingsRow c7_db 7).map SettingsRow.ai_model = some "anthropic/claude-3.5-sonnet"
    ∧ (settingsRow (set_user_ai_setting c7_db 7 true) 7).map SettingsRow.ai_model
        = some "openai/gpt-3.5-turbo"
    ∧ ¬ ((settingsRow (set_user_ai_setting c7_db 7 true) 7).map SettingsRow.ai_model
        = some "anthropic/claude-3.5-sonnet") := by
  decide

/-- C7 (amended): each settings write replaces the whole row — after
`set_user_ai_setting` the stored row is the column defaults with only
`ai_enabled` set (so any custom `ai_model` is reset to the default), and
after `set_user_ai_model` it is the defaults with only `ai_model` set (so
`ai_enabled` is reset to its default `TRUE`). -/
theorem C7_settings_replace (db : DB) (uid : Int) (e : Bool) (m : String) :
    settingsRow (set_user_ai_setting db uid e) uid
      = some { defaultSettings uid with ai_enabled := e }
    ∧ settingsRow (set_user_ai_model db uid m) uid
      = some { defaultSettings uid with ai_model := m } := by
  constructor
  · exact find?_insertOrReplace db.settings { defaultSettings uid with ai_enabled := e }
  · exact find?_insertOrReplace db.settings { defaultSettings uid with ai_model := m }

/-! ## C8 — the API-key feature flag -/

/-- C8 is the claim the code violates (a code bug): with the credential
absent (`os.getenv` returns `None`), `OPENROUTER_API_KEY !=
"YOUR_OPENROUTER_API_KEY"` evaluates to `True`, so the global flag stays
enabled and an owner message with default per-user settings is routed to
the orchestrator — the AI-disabled reply path is taken neither here nor
anywhere; the flag is `False` only when the key equals the placeholder.
This contradicts the program's own startup warnings (lines 56–57 and
881–882: "OPENROUTER_API_KEY not set. AI features will be disabled."). -/
theorem C8_code_bug_eval :
    ai_enabled_flag none = true
    ∧ owner_message_route none emptyDB 1 = OwnerRoute.ai_processing
    ∧ ai_enabled_flag (some "YOUR_OPENROUTER_API_KEY") = false
    ∧ ai_enabled_flag (some "sk-or-abc") = true := by
  decide

/-! ## C10 — `is_user_ai_enabled` defaults open -/

/-- C10: `is_user_ai_enabled` returns `True` when the user has no settings
row and when the settings read raises, and returns the stored flag when a
row exists — the per-user AI gate permits AI unless explicitly disabled. -/
theorem C10_default_open (db : DB) (uid : Int) :
    (settingsRow db uid = none → is_user_ai_enabled db uid = true)
    ∧ is_user_ai_enabled_result (Except.error ()) = true
    ∧ (∀ row, settingsRow db uid = some row →
        is_user_ai_enabled db uid = row.ai_enabled) := by
  refine ⟨?_, rfl, ?_⟩
  · intro h
    simp [is_user_ai_enabled, is_user_ai_enabled_result, h]
  · intro row h
    simp [is_user_ai_enabled, is_user_ai_enabled_result, h]

/-- Witness for C10 at a concrete state: a fresh database has no settings
row for user 1, and the gate evaluates to `True`. -/
theorem C10_witness :
    is_user_ai_enabled emptyDB 1 = true
    ∧ is_user_ai_enabled_result (Except.error ()) = true :=
  ⟨(C10_default_open emptyDB 1).1 rfl, (C10_default_open emptyDB 1).2.1⟩

/-! ## C9 — the request message list -/

/-- A conversation memory holding three full exchanges (6 entries). -/
def c9_mem6 : List Msg :=
  [⟨.user, "u1"⟩, ⟨.assistant, "a1"⟩, ⟨.user, "u2"⟩, ⟨.assistant, "a2"⟩,
   ⟨.user, "u3"⟩, ⟨.assistant, "a3"⟩]

/-- C9 fails on the code: with 3 full exchanges (6 entries) in memory the
request contains only `memory[-3:]` — the last 3 message entries — so the
message list has 1 + 3 + 1 = 5 entries, not the 1 + 6 + 1 = 8 the claim's
"up to the last 3 stored exchanges (up to 6 entries)" requires, and it is
not the claimed list. -/
theorem C9_counterexample :
    (get_ai_response 1 "q" none c9_mem6 emptyDB ⟨0, 0⟩ "سلام").request_messages.length = 5
    ∧ (Msg.mk Role.system (build_system_prompt none)
        :: (c9_mem6 ++ [Msg.mk Role.user "q"])).length = 8
    ∧ (get_ai_response 1 "q" none c9_mem6 emptyDB ⟨0, 0⟩ "سلام").request_messages
        ≠ Msg.mk Role.system (build_system_prompt none)
            :: (c9_mem6 ++ [Msg.mk Role.user "q"]) := by
  refine ⟨rfl, rfl, fun h => ?_⟩
  have h2 := congrArg List.length h
  exact absurd h2 (by decide)

/-- C9 (amended): the request is the system instruction block, then up to
the last 3 stored message entries (a suffix of the memory, all of it when
shorter), then the new user message. -/
theorem C9_request_structure (uid : Int) (message : String)
    (context : Option String) (mem : List Msg) (db : DB) (env : Env)
    (resp : String) :
    (get_ai_response uid message context mem db env resp).request_messages
      = Msg.mk Role.system (build_system_prompt context)
          :: (pyTakeLast mem 3 ++ [Msg.mk Role.user message])
    ∧ (pyTakeLast mem 3).length = min 3 mem.length
    ∧ List.IsSuffix (pyTakeLast mem 3) mem
    ∧ (get_ai_response uid message context mem db env resp).request_messages.length
        = min 3 mem.length + 2 := by
  have hlen : (pyTakeLast mem 3).length = min 3 mem.length := by
    simp only [pyTakeLast, List.length_drop]
    omega
  refine ⟨rfl, hlen, List.drop_suffix _ _, ?_⟩
  show (build_request_messages context mem message).length = min 3 mem.length + 2
  simp [build_request_messages, hlen]

/-! ## C1 — the directive grammar -/

/-- The splitting the claim describes — split the remainder on the FIRST
occurrence of the separator only, the payload being everything after it.
Spec-side definition, for comparison with the source's split-on-every-
occurrence behaviour. -/
def spec_split_first (s : List Char) : List Char × Option (List Char) :=
  match splitSep sepChars s with
  | [] => ([], none)
  | [a] => (a, none)
  | a :: rest => (a, some (List.intercalate sepChars rest))

/-- A directive whose JSON payload itself contains the separator. -/
def c1_resp : String :=
  "EXECUTE_FUNCTION: add_task | \x7b\"description\": \"a | b\"\x7d"

/-- The whole payload of `c1_resp` as the claim reads it. -/
def c1_payload : List Char := "\x7b\"description\": \"a | b\"\x7d".data

/-- C1 fails on the code: for the directive `c1_resp` the payload after the
first separator is valid JSON (so under the claim `add_task` would run on
`\x7b"description": "a | b"\x7d`), but the source splits on every
occurrence of the separator, truncating the payload at its embedded
separator; the truncated fragment fails to parse, a formatted error string
is returned and no task is created. -/
theorem C1_counterexample :
    (spec_split_first (pyStrip (removeAll markerChars c1_resp.data))).2 = some c1_payload
    ∧ jsonParseObj c1_payload = some [("description", JVal.str "a | b")]
    ∧ (get_ai_response 1 "hi" none [] emptyDB ⟨0, 0⟩ c1_resp).reply
        = "❌ خطا در اجرای دستور: " ++ json_error_message
    ∧ (get_ai_response 1 "hi" none [] emptyDB ⟨0, 0⟩ c1_resp).db.tasks = [] := by
  refine ⟨by decide, by decide, ?_, ?_⟩ <;> decide

/-- C1 (amended): a response is treated as a directive iff it begins with
`EXECUTE_FUNCTION:`; the remainder is split on EVERY occurrence of ` | `,
the function name is the first segment and the payload the second (later
segments are discarded, so a payload containing ` | ` is truncated); a
payload that fails to parse yields a formatted error string — memory,
database and scheduler untouched — rather than an exception or a retry;
a parsed directive is dispatched to `execute_function`. -/
theorem C1_directive_grammar (uid : Int) (message : String)
    (context : Option String) (mem : List Msg) (db : DB) (env : Env)
    (resp : String) :
    (List.isPrefixOf markerChars resp.data = false →
      (get_ai_response uid message context mem db env resp).reply = resp
      ∧ (get_ai_response uid message context mem db env resp).jobs = []
      ∧ (get_ai_response uid message context mem db env resp).db.tasks = db.tasks)
    ∧ (List.isPrefixOf markerChars resp.data = true →
      (directive_params resp = none →
        (get_ai_response uid message context mem db env resp).reply
            = "❌ خطا در اجرای دستور: " ++ json_error_message
        ∧ (get_ai_response uid message context mem db env resp).memory = mem
        ∧ (get_ai_response uid message context mem db env resp).db = db
        ∧ (get_ai_response uid message context mem db env resp).jobs = [])
      ∧ (∀ ps, directive_params resp = some ps →
        (get_ai_response uid message context mem db env resp).reply
            = (execute_function (directive_fname resp) ps uid db env).1
        ∧ (get_ai_response uid message context mem db env resp).jobs
            = (execute_function (directive_fname resp) ps uid db env).2.2)) := by
  refine ⟨fun h => ?_, fun h => ⟨fun hp => ?_, fun ps hp => ?_⟩⟩
  · simp [get_ai_response, ai_respond, h, save_ai_conversation]
  · simp [get_ai_response, ai_respond, h, hp]
  · simp [get_ai_response, ai_respond, h, hp]

/-- Witness for C1 at a concrete input: a plain Persian response carrying
no marker is returned verbatim, registers no job and creates no task. -/
theorem C1_witness :
    (get_ai_response 1 "سلام" none [] emptyDB ⟨0, 0⟩ "چه خبر؟").reply = "چه خبر؟"
    ∧ (get_ai_response 1 "سلام" none [] emptyDB ⟨0, 0⟩ "چه خبر؟").jobs = []
    ∧ (get_ai_response 1 "سلام" none [] emptyDB ⟨0, 0⟩ "چه خبر؟").db.tasks
        = emptyDB.tasks :=
  (C1_directive_grammar 1 "سلام" none [] emptyDB ⟨0, 0⟩ "چه خبر؟").1 (by decide)

/-! ## C3 — the conversation-memory bound -/

/-- One successful directive exchange, iterated for the counterexample. -/
def c3_step (s : List Msg × DB) : List Msg × DB :=
  let o := get_ai_response 1 "یه نکته بگو" none s.1 s.2 ⟨0, 0⟩ "EXECUTE_FUNCTION: get_tip"
  (o.memory, o.db)

/-- C3 fails on the code: the 6-entry cap is applied only on the
non-directive branch, so four successful directive exchanges leave 8
entries in the user's conversation memory. -/
theorem C3_counterexample :
    (c3_step (c3_step (c3_step (c3_step ([], emptyDB))))).1.length = 8
    ∧ ¬ ((c3_step (c3_step (c3_step (c3_step ([], emptyDB))))).1.length ≤ 6) := by
  refine ⟨by decide, by decide⟩

/-- C3 (amended): the 6-entry cap (oldest dropped first) is enforced only
on successful NON-directive exchanges — after one the memory is exactly the
last 6 entries of the old memory plus the new pair, hence at most 6 —
while a successful directive exchange appends its two entries with no
truncation. -/
theorem C3_memory_cap (uid : Int) (message : String) (context : Option String)
    (mem : List Msg) (db : DB) (env : Env) (resp : String) :
    (List.isPrefixOf markerChars resp.data = false →
      (get_ai_response uid message context mem db env resp).memory
        = pyTakeLast (mem ++ [Msg.mk Role.user message, Msg.mk Role.assistant resp]) 6
      ∧ (get_ai_response uid message context mem db env resp).memory.length ≤ 6)
    ∧ (∀ ps, List.isPrefixOf markerChars resp.data = true →
        directive_params resp = some ps →
        (get_ai_response uid message context mem db env resp).memory
          = mem ++ [Msg.mk Role.user message, Msg.mk Role.assistant
              (execute_function (directive_fname resp) ps uid db env).1]) := by
  have htr : ∀ l : List Msg, truncate6 l = pyTakeLast l 6 := by
    intro l
    unfold truncate6
    split
    · rfl
    · have h0 : l.length - 6 = 0 := by omega
      simp [pyTakeLast, h0]
  have hle : ∀ l : List Msg, (pyTakeLast l 6).length ≤ 6 := by
    intro l
    simp only [pyTakeLast, List.length_drop]
    omega
  refine ⟨fun h => ?_, fun ps h hp => ?_⟩
  · constructor
    · show (ai_respond uid message mem db env (get_user_ai_model db uid) resp).2.1 = _
      simp [ai_respond, h, htr]
    · show (ai_respond uid message mem db env (get_user_ai_model db uid) resp).2.1.length ≤ 6
      simp [ai_respond, h, htr]
      exact hle _
  · show (ai_respond uid message mem db env (get_user_ai_model db uid) resp).2.1 = _
    simp [ai_respond, h, hp]

/-- Witness for C3 at a concrete input: a non-directive exchange on a
6-entry memory keeps only six entries, the oldest two dropped. -/
theorem C3_witness :
    (get_ai_response 1 "hi" none
        [⟨.user, "x1"⟩, ⟨.assistant, "y1"⟩, ⟨.user, "x2"⟩, ⟨.assistant, "y2"⟩,
         ⟨.user, "x3"⟩, ⟨.assistant, "y3"⟩] emptyDB ⟨0, 0⟩ "سلام").memory
      = pyTakeLast
          ([⟨.user, "x1"⟩, ⟨.assistant, "y1"⟩, ⟨.user, "x2"⟩, ⟨.assistant, "y2"⟩,
            ⟨.user, "x3"⟩, ⟨.assistant, "y3"⟩]
            ++ [Msg.mk Role.user "hi", Msg.mk Role.assistant "سلام"]) 6
    ∧ (get_ai_response 1 "hi" none
        [⟨.user, "x1"⟩, ⟨.assistant, "y1"⟩, ⟨.user, "x2"⟩, ⟨.assistant, "y2"⟩,
         ⟨.user, "x3"⟩, ⟨.assistant, "y3"⟩] emptyDB ⟨0, 0⟩ "سلام").memory.length ≤ 6 :=
  (C3_memory_cap 1 "hi" none
      [⟨.user, "x1"⟩, ⟨.assistant, "y1"⟩, ⟨.user, "x2"⟩, ⟨.assistant, "y2"⟩,
       ⟨.user, "x3"⟩, ⟨.assistant, "y3"⟩] emptyDB ⟨0, 0⟩ "سلام").1 (by decide)

/-! ## C5 — `set_reminder` error handling and atomicity -/

/-- C5 fails on the code as stated: an empty `time` parameter fails the
Time Parser, yet the call returns the missing-parameter error — which is
not the time-format error — because the emptiness check runs before the
parser (state is still unchanged). -/
theorem C5_counterexample :
    parse_time_string 0 "" = .error (PyErr.valueError timeFormatMsg)
    ∧ execute_function "set_reminder"
        [("time", JVal.str ""), ("description", JVal.str "x")] 1 emptyDB ⟨0, 0⟩
        = ("❌ زمان و توضیحات یادآوری لازم است. مثل: '30 دقیقه دیگر قرار ملاقات'",
           emptyDB, [])
    ∧ ("❌ زمان و توضیحات یادآوری لازم است. مثل: '30 دقیقه دیگر قرار ملاقات'" : String)
        ≠ "❌ " ++ timeFormatMsg := by
  refine ⟨rfl, by decide, by decide⟩

/-- C5 (amended): on a `set_reminder` call with non-empty string `time` and
non-empty `description`: a Time Parser `ValueError` returns the formatted
time-format error, and a Time Parser `OverflowError` (too-large value,
uncaught by the `except ValueError` handler) returns the generic execution
error — in both cases no reminder is persisted and no job is registered;
Time Parser success persists exactly one reminder and registers exactly one
job keyed `reminder_<id>` by the new reminder's identifier; an empty/missing
parameter returns the missing-parameter error, also changing nothing. -/
theorem C5_set_reminder (db : DB) (env : Env) (uid : Int) (ts ds : String) :
    (ts ≠ "" → ds ≠ "" → ∀ e, parse_time_string env.now ts = .error (PyErr.valueError e) →
      execute_function "set_reminder"
          [("time", JVal.str ts), ("description", JVal.str ds)] uid db env
        = ("❌ " ++ e, db, []))
    ∧ (ts ≠ "" → ds ≠ "" → parse_time_string env.now ts = .error PyErr.overflowError →
      execute_function "set_reminder"
          [("time", JVal.str ts), ("description", JVal.str ds)] uid db env
        = ("❌ خطا در اجرای عملکرد: " ++ overflow_error_message, db, []))
    ∧ (ts ≠ "" → ds ≠ "" → ∀ t, parse_time_string env.now ts = .ok t →
      execute_function "set_reminder"
          [("time", JVal.str ts), ("description", JVal.str ds)] uid db env
        = ("⏰ یادآوری تنظیم شد: " ++ ds ++ " در " ++ formatMDHM t,
           { db with
              reminders := db.reminders
                ++ [⟨db.next_reminder_id, uid, ds, t, env.now, false⟩],
              next_reminder_id := db.next_reminder_id + 1 },
           [⟨"reminder_" ++ toString db.next_reminder_id, t, uid, ds,
             db.next_reminder_id⟩]))
    ∧ ((ts = "" ∨ ds = "") →
      execute_function "set_reminder"
          [("time", JVal.str ts), ("description", JVal.str ds)] uid db env
        = ("❌ زمان و توضیحات یادآوری لازم است. مثل: '30 دقیقه دیگر قرار ملاقات'",
           db, [])) := by
  refine ⟨fun h1 h2 e he => ?_, fun h1 h2 ho => ?_, fun h1 h2 t ht => ?_,
    fun h => ?_⟩
  · simp [execute_function, pgetD, pget, jfalsy, jrender, h1, h2, he]
  · simp [execute_function, pgetD, pget, jfalsy, jrender, h1, h2, ho]
  · simp [execute_function, pgetD, pget, jfalsy, jrender, h1, h2, ht]
  · rcases h with h | h <;>
      simp [execute_function, pgetD, pget, jfalsy, jrender, h]

/-- Witness for C5 at a concrete input: "30m" parses to 1800 seconds from
now, one reminder row is written and one job `reminder_1` registered. -/
theorem C5_witness :
    execute_function "set_reminder"
        [("time", JVal.str "30m"), ("description", JVal.str "قرار")] 1 emptyDB ⟨0, 0⟩
      = ("⏰ یادآوری تنظیم شد: قرار در " ++ formatMDHM 1800,
         { emptyDB with
            reminders := emptyDB.reminders ++ [⟨1, 1, "قرار", 1800, 0, false⟩],
            next_reminder_id := 2 },
         [⟨"reminder_" ++ toString 1, 1800, 1, "قرار", 1⟩]) :=
  (C5_set_reminder emptyDB ⟨0, 0⟩ 1 "30m" "قرار").2.2.1 (by decide) (by decide) 1800 rfl

/-! ## C6 — the daily summary counts -/

/-- History for the C6 counterexample, step 1: a task created on day 0. -/
def c6_db1 : DB :=
  (execute_function "add_task" [("description", JVal.str "A")] 1 emptyDB ⟨0, 0⟩).2.1

/-- History for the C6 counterexample, step 2: that task is completed on
day 1 (at 90000 s). -/
def c6_db2 : DB :=
  (execute_function "complete_task" [("task_number", JVal.str "1")] 1 c6_db1
    ⟨90000, 0⟩).2.1

/-- C6 fails on the code: a task created on day 0 and completed on day 1 is
counted by `DATE(created_at)`, not by when it was completed, so the summary
taken on day 1 — right after the completion — reports 0 completed tasks
where the claim's "tasks completed today" requires 1. -/
theorem C6_counterexample :
    c6_db2.tasks = [⟨1, 1, "A", 0, true⟩]
    ∧ dayOf 0 ≠ dayOf 90000
    ∧ summaryCounts c6_db2 1 90000 = (0, 0, 0, 0)
    ∧ (summaryCounts c6_db2 1 90000).1 ≠ 1 := by
  refine ⟨by decide, by decide, by decide, by decide⟩

/-- The fixture of the claim, under the code's reading: 2 tasks created
today and completed, 3 pending, 1 note today, 2 AI exchanges today. -/
def c6_fixture : DB :=
  { emptyDB with
    tasks := [⟨1, 1, "t1", 5, true⟩, ⟨2, 1, "t2", 10, true⟩,
              ⟨3, 1, "p1", 15, false⟩, ⟨4, 1, "p2", 20, false⟩,
              ⟨5, 1, "p3", 25, false⟩],
    notes := [⟨1, 1, "n1", 30⟩],
    ai_conversations := [⟨1, 1, "m1", "r1", "mod", 40⟩, ⟨2, 1, "m2", "r2", "mod", 50⟩],
    next_task_id := 6, next_note_id := 2, next_conv_id := 3 }

/-- C6 (amended): `get_summary` reports, scoped to the caller and the
current calendar day, the number of tasks CREATED today that are marked
completed, the pending tasks overall, the notes created today and the AI
exchanges logged today, and changes nothing; on the claim's fixture —
with the completed tasks created today — the counts are exactly
(2, 3, 1, 2). -/
theorem C6_summary (db : DB) (uid : Int) (env : Env) (params : Params) :
    execute_function "get_summary" params uid db env
      = (renderSummary env.now (summaryCounts db uid env.now), db, [])
    ∧ (summaryCounts db uid env.now).1
        = List.countP (fun t => t.user_id == uid && t.completed
            && (dayOf t.created_at == dayOf env.now)) db.tasks
    ∧ (summaryCounts db uid env.now).2.1
        = List.countP (fun t => t.user_id == uid && !t.completed) db.tasks
    ∧ (summaryCounts db uid env.now).2.2.1
        = List.countP (fun n => n.user_id == uid
            && (dayOf n.created_at == dayOf env.now)) db.notes
    ∧ (summaryCounts db uid env.now).2.2.2
        = List.countP (fun c => c.user_id == uid
            && (dayOf c.created_at == dayOf env.now)) db.ai_conversations
    ∧ summaryCounts c6_fixture 1 50000 = (2, 3, 1, 2) := by
  refine ⟨by simp [execute_function], ?_, ?_, ?_, ?_, by decide⟩ <;>
    simp [summaryCounts, List.countP_eq_length_filter]

/-! ## C2 — `complete_task` positional indexing -/

theorem markCompleted_created (tid : Nat) (t : Task) :
    (markCompleted tid t).created_at = t.created_at := by
  unfold markCompleted
  split <;> rfl

theorem markCompleted_of_ne (tid : Nat) (t : Task) (h : t.id ≠ tid) :
    markCompleted tid t = t := by
  unfold markCompleted
  rw [if_neg (by simpa using h)]

theorem sortByCreated_of_pairwise (l : List Task)
    (h : l.Pairwise (fun a b => a.created_at ≤ b.created_at)) :
    sortByCreated l = l := by
  induction l with
  | nil => rfl
  | cons t ts ih =>
    rw [List.pairwise_cons] at h
    show insertByCreated t (sortByCreated ts) = t :: ts
    rw [ih h.2]
    cases ts with
    | nil => rfl
    | cons u us =>
      show (if t.created_at ≤ u.created_at then _ else _) = _
      rw [if_pos (h.1 u (List.mem_cons_self u us))]

theorem filter_map_mark (p : Task → Bool)
    (hp : ∀ t : Task, p { t with completed := true } = false) :
    ∀ (l : List Task), (l.map Task.id).Nodup →
      ∀ (pre : List Task) (tgt : Task) (post : List Task),
        l.filter p = pre ++ tgt :: post →
        List.filter p (l.map (markCompleted tgt.id)) = pre ++ post := by
  intro l
  induction l with
  | nil =>
    intro _ pre tgt post heq
    exact absurd heq.symm (by simp)
  | cons x xs ih =>
    intro hnd pre tgt post heq
    rw [List.map_cons, List.nodup_cons] at hnd
    obtain ⟨hx_notin, hnd2⟩ := hnd
    by_cases hx : p x = true
    · rw [List.filter_cons_of_pos hx] at heq
      cases pre with
      | nil =>
        simp only [List.nil_append] at heq ⊢
        have hx_tgt : x = tgt := by
          have := congrArg (fun z => List.headD z x) heq
          simpa using this
        have hpost : xs.filter p = post := by
          have := congrArg List.tail heq
          simpa using this
        subst hx_tgt
        rw [List.map_cons]
        have hmx : markCompleted x.id x = { x with completed := true } := by
          unfold markCompleted
          rw [if_pos (by simp)]
        rw [hmx, List.filter_cons_of_neg (by simp [hp x])]
        have hmap : xs.map (markCompleted x.id) = xs := by
          have h1 : xs.map (markCompleted x.id) = xs.map id :=
            List.map_congr_left (fun y hy => markCompleted_of_ne x.id y
              (fun hid => hx_notin (hid ▸ List.mem_map_of_mem Task.id hy)))
          simpa using h1
        rw [hmap, hpost]
      | cons a pre2 =>
        have ha : x = a := by
          have := congrArg (fun z => List.headD z x) heq
          simpa using this
        subst ha
        have heq2 : xs.filter p = pre2 ++ tgt :: post := by
          have := congrArg List.tail heq
          simpa using this
        have htgt_mem : tgt ∈ xs := by
          have : tgt ∈ xs.filter p := by
            rw [heq2]
            exact List.mem_append_right _ (List.mem_cons_self tgt post)
          exact (List.mem_filter.mp this).1
        have hne : x.id ≠ tgt.id :=
          fun hid => hx_notin (hid ▸ List.mem_map_of_mem Task.id htgt_mem)
        rw [List.map_cons, markCompleted_of_ne tgt.id x hne,
          List.filter_cons_of_pos hx, ih hnd2 pre2 tgt post heq2,
          List.cons_append]
    · rw [List.filter_cons_of_neg (by simpa using hx)] at heq
      have htgt_mem : tgt ∈ xs := by
        have : tgt ∈ xs.filter p := by
          rw [heq]
          exact List.mem_append_right _ (List.mem_cons_self tgt post)
        exact (List.mem_filter.mp this).1
      have hne : x.id ≠ tgt.id :=
        fun hid => hx_notin (hid ▸ List.mem_map_of_mem Task.id htgt_mem)
      rw [List.map_cons, markCompleted_of_ne tgt.id x hne,
        List.filter_cons_of_neg (by simpa using hx)]
      exact ih hnd2 pre tgt post heq

/-- C2: with the user's incomplete tasks in creation order (creation
timestamps nondecreasing along the table, ids unique), `complete_task`
with 1-based position `n` completes exactly the task at position `n` of
the current incomplete ordering — the subsequent incomplete list is that
list with position `n` removed and every other task row is untouched —
while a non-numeric, missing, or out-of-range `task_number` returns a
formatted error string and changes no task. -/
theorem C2_complete_task (db : DB) (uid : Int) (env : Env) (params : Params)
    (hsort : db.tasks.Pairwise (fun a b => a.created_at ≤ b.created_at))
    (hnd : (db.tasks.map Task.id).Nodup) :
    (∀ s n, pget params "task_number" = some (JVal.str s) → pyInt s = some n →
      1 ≤ n → n ≤ ((incompleteOf db uid).length : Int) →
      execute_function "complete_task" params uid db env
        = ("🎉 وظیفه تکمیل شد: "
            ++ ((incompleteOf db uid).getD (n - 1).toNat ⟨0, 0, "", 0, false⟩).description,
           { db with tasks := db.tasks.map (markCompleted
              ((incompleteOf db uid).getD (n - 1).toNat ⟨0, 0, "", 0, false⟩).id) }, [])
      ∧ incompleteOf { db with tasks := db.tasks.map (markCompleted
            ((incompleteOf db uid).getD (n - 1).toNat ⟨0, 0, "", 0, false⟩).id) } uid
          = (incompleteOf db uid).eraseIdx (n - 1).toNat
      ∧ ∀ t ∈ db.tasks,
          t.id ≠ ((incompleteOf db uid).getD (n - 1).toNat ⟨0, 0, "", 0, false⟩).id →
          t ∈ db.tasks.map (markCompleted
            ((incompleteOf db uid).getD (n - 1).toNat ⟨0, 0, "", 0, false⟩).id))
    ∧ (∀ s, pget params "task_number" = some (JVal.str s) → s ≠ "" → pyInt s = none →
        execute_function "complete_task" params uid db env
          = ("❌ شماره وظیفه باید عدد باشد.", db, []))
    ∧ (∀ s n, pget params "task_number" = some (JVal.str s) → pyInt s = some n →
        (n < 1 ∨ n > ((incompleteOf db uid).length : Int)) →
        execute_function "complete_task" params uid db env
          = ("❌ شماره وظیفه نامعتبر است.", db, []))
    ∧ (pget params "task_number" = none →
        execute_function "complete_task" params uid db env
          = ("❌ کدام وظیفه را تکمیل کنم؟ شماره آن را بگویید.", db, [])) := by
  have hInc : incompleteOf db uid
      = db.tasks.filter (fun t => t.user_id == uid && !t.completed) := by
    unfold incompleteOf
    exact sortByCreated_of_pairwise _ (hsort.filter _)
  refine ⟨fun s n hp hn h1 h2 => ?_, fun s hp hs hn => ?_,
    fun s n hp hn hrange => ?_, fun hp => ?_⟩
  · have hs : s ≠ "" := by
      intro h
      rw [h] at hn
      rw [show pyInt "" = none from rfl] at hn
      exact Option.noConfusion hn
    have hfalsy : ((s == "") = false) := by simpa using hs
    have hne : ¬ ((incompleteOf db uid).isEmpty = true ∨ n < 1
        ∨ n > ((incompleteOf db uid).length : Int)) := by
      push_neg
      have hlen : 1 ≤ (incompleteOf db uid).length := by omega
      refine ⟨?_, by omega, by omega⟩
      cases hh : incompleteOf db uid with
      | nil => rw [hh] at hlen; simp at hlen
      | cons a l => simp
    have hexec : execute_function "complete_task" params uid db env
        = ("🎉 وظیفه تکمیل شد: "
            ++ ((incompleteOf db uid).getD (n - 1).toNat ⟨0, 0, "", 0, false⟩).description,
           { db with tasks := db.tasks.map (markCompleted
              ((incompleteOf db uid).getD (n - 1).toNat ⟨0, 0, "", 0, false⟩).id) }, []) := by
      have hred : execute_function "complete_task" params uid db env
          = complete_task_impl (pget params "task_number") uid db := rfl
      rw [hred, hp]
      simp only [complete_task_impl, jfalsy, hfalsy, Bool.false_eq_true,
        if_false, toIntJ, hn]
      rw [if_neg hne]
    refine ⟨hexec, ?_, ?_⟩
    · -- the incomplete list afterwards
      set idx := (n - 1).toNat with hidx
      have hlt : idx < (incompleteOf db uid).length := by omega
      have hget : (incompleteOf db uid).getD idx ⟨0, 0, "", 0, false⟩
          = (incompleteOf db uid).get ⟨idx, hlt⟩ := List.getD_eq_get _ _ hlt
      have hdecomp : incompleteOf db uid
          = (incompleteOf db uid).take idx
            ++ (incompleteOf db uid).get ⟨idx, hlt⟩ :: (incompleteOf db uid).drop (idx + 1) := by
        conv_lhs => rw [← List.take_append_drop idx (incompleteOf db uid)]
        rw [List.drop_eq_get_cons hlt]
      have hmap_pairwise : (db.tasks.map (markCompleted
          ((incompleteOf db uid).getD idx ⟨0, 0, "", 0, false⟩).id)).Pairwise
            (fun a b => a.created_at ≤ b.created_at) := by
        rw [List.pairwise_map]
        exact hsort.imp (fun h => by rw [markCompleted_created, markCompleted_created]; exact h)
      have hInc2 : incompleteOf { db with tasks := db.tasks.map (markCompleted
            ((incompleteOf db uid).getD idx ⟨0, 0, "", 0, false⟩).id) } uid
          = (db.tasks.map (markCompleted
              ((incompleteOf db uid).getD idx ⟨0, 0, "", 0, false⟩).id)).filter
                (fun t => t.user_id == uid && !t.completed) := by
        unfold incompleteOf
        exact sortByCreated_of_pairwise _ (hmap_pairwise.filter _)
      rw [hInc2, hget]
      have hmark := filter_map_mark (fun t => t.user_id == uid && !t.completed)
        (fun t => by simp) db.tasks hnd
        ((incompleteOf db uid).take idx) ((incompleteOf db uid).get ⟨idx, hlt⟩)
        ((incompleteOf db uid).drop (idx + 1))
        (by rw [← hInc]; exact hdecomp)
      rw [hmark, List.eraseIdx_eq_take_drop_succ]
    · intro t ht hne2
      rw [← markCompleted_of_ne _ t hne2]
      exact List.mem_map_of_mem _ ht
  · have hfalsy : ((s == "") = false) := by simpa using hs
    have hred : execute_function "complete_task" params uid db env
        = complete_task_impl (pget params "task_number") uid db := rfl
    rw [hred, hp]
    simp only [complete_task_impl, jfalsy, hfalsy, Bool.false_eq_true,
      if_false, toIntJ, hn]
  · have hs : s ≠ "" := by
      intro h
      rw [h] at hn
      rw [show pyInt "" = none from rfl] at hn
      exact Option.noConfusion hn
    have hfalsy : ((s == "") = false) := by simpa using hs
    have hcond : ((incompleteOf db uid).isEmpty = true ∨ n < 1
        ∨ n > ((incompleteOf db uid).length : Int)) := Or.inr (by omega)
    have hred : execute_function "complete_task" params uid db env
        = complete_task_impl (pget params "task_number") uid db := rfl
    rw [hred, hp]
    simp only [complete_task_impl, jfalsy, hfalsy, Bool.false_eq_true,
      if_false, toIntJ, hn]
    rw [if_pos hcond]
  · have hred : execute_function "complete_task" params uid db env
        = complete_task_impl (pget params "task_number") uid db := rfl
    rw [hred, hp]
    rfl

/-- The task fixture of C2's example: incomplete tasks A, B, C in creation
order. -/
def c2_db : DB :=
  { emptyDB with
    tasks := [⟨1, 1, "A", 10, false⟩, ⟨2, 1, "B", 20, false⟩, ⟨3, 1, "C", 30, false⟩],
    next_task_id := 4 }

/-- Witness for C2 at the claim's example: with incomplete tasks [A, B, C],
`complete_task(2)` completes B and the incomplete list becomes [A, C]. -/
theorem C2_witness :
    execute_function "complete_task" [("task_number", JVal.str "2")] 1 c2_db ⟨100, 0⟩
      = ("🎉 وظیفه تکمیل شد: "
          ++ ((incompleteOf c2_db 1).getD ((2 : Int) - 1).toNat ⟨0, 0, "", 0, false⟩).description,
         { c2_db with tasks := c2_db.tasks.map (markCompleted
            ((incompleteOf c2_db 1).getD ((2 : Int) - 1).toNat ⟨0, 0, "", 0, false⟩).id) }, [])
    ∧ incompleteOf { c2_db with tasks := c2_db.tasks.map (markCompleted
          ((incompleteOf c2_db 1).getD ((2 : Int) - 1).toNat ⟨0, 0, "", 0, false⟩).id) } 1
        = (incompleteOf c2_db 1).eraseIdx ((2 : Int) - 1).toNat :=
  ⟨((C2_complete_task c2_db 1 ⟨100, 0⟩ [("task_number", JVal.str "2")]
      (by decide) (by decide)).1 "2" 2 (by decide) (by decide)
      (by decide) (by decide)).1,
   ((C2_complete_task c2_db 1 ⟨100, 0⟩ [("task_number", JVal.str "2")]
      (by decide) (by decide)).1 "2" 2 (by decide) (by decide)
      (by decide) (by decide)).2.1⟩

/-- The C2 example, evaluated: B is reported completed and the subsequent
listing is [A, C] with C at position 2. -/
theorem C2_example_eval :
    (execute_function "complete_task" [("task_number", JVal.str "2")] 1 c2_db ⟨100, 0⟩).1
      = "🎉 وظیفه تکمیل شد: B"
    ∧ incompleteOf
        (execute_function "complete_task" [("task_number", JVal.str "2")] 1 c2_db ⟨100, 0⟩).2.1 1
      = [⟨1, 1, "A", 10, false⟩, ⟨3, 1, "C", 30, false⟩]
    ∧ pyInt "۲" = some 2
    ∧ pyInt "1_0" = some 10
    ∧ (execute_function "complete_task" [("task_number", JVal.str "۲")] 1 c2_db ⟨100, 0⟩).1
      = "🎉 وظیفه تکمیل شد: B" := by
  refine ⟨by decide, by decide, by decide, by decide, by decide⟩

end Jarvis
